import Mathlib

/-!
Verification development for the song-submission application (`src/app.py`).

The application is a single-page form that collects a name and two song
titles, stores submissions as rows of a tab-separated table in a local file,
and synchronizes that file with a remote Dropbox blob
(download whole file, append a row, save locally, re-upload whole file).

The embedding below models:

* dataframes (`DF`) as a list of column names plus rows given as
  association lists from column name to cell value (mirroring pandas);
* the world state (`World`): the remote file, the local file and the three
  session-state text fields;
* files as `Option FileContent`, where `FileContent.malformed` stands for a
  local file that exists but cannot be parsed as a TSV and
  `FileContent.table df` for a file whose TSV parse yields `df`;
* injected environment failures (`Env`) standing for the exceptions the
  Dropbox SDK can raise, and a trace of the storage calls actually issued;
* Python's `str.strip` as `pstrip`.
-/

/-- Whitespace characters stripped by Python's `str.strip()` (ASCII part). -/
def isPySpace (c : Char) : Bool :=
  c = ' ' || c = '\t' || c = '\n' || c = '\r' || c = Char.ofNat 11 || c = Char.ofNat 12

/-- Python's `str.strip()` on the underlying character list: remove leading
and trailing whitespace. -/
def pstripList (l : List Char) : List Char :=
  (l.dropWhile isPySpace).rdropWhile isPySpace

/-- Python's `str.strip()`. -/
def pstrip (s : String) : String :=
  ⟨pstripList s.data⟩

/-- `COLUMNS = ["Name", "Song1", "Song2"]` from `app.py`. -/
def COLUMNS : List String := ["Name", "Song1", "Song2"]

/-- A row of a dataframe: an association list from column name to value. -/
abbrev Row := List (String × String)

/-- A pandas dataframe: ordered column names and rows. -/
structure DF where
  columns : List String
  rows : List Row
deriving DecidableEq, Repr

/-- Reading a cell of a row by column name; a column absent from the row
reads as the (stringified) missing value `pd.NA`. -/
def lookupCell (r : Row) (c : String) : String :=
  match r.lookup c with
  | some v => v
  | none => "<NA>"

/-- `df[col] = pd.NA`: add a column, filled with the missing value. -/
def setColNA (df : DF) (c : String) : DF :=
  ⟨df.columns ++ [c], df.rows.map (fun r => r ++ [(c, "<NA>")])⟩

/-- The loop `for col in COLUMNS: if col not in df.columns: df[col] = pd.NA`
from `load_tsv`. -/
def ensureCols (df : DF) : DF :=
  COLUMNS.foldl (fun d c => if c ∈ d.columns then d else setColNA d c) df

/-- Restrict a row to the given columns, in order. -/
def selectRow (cs : List String) (r : Row) : Row :=
  cs.map (fun c => (c, lookupCell r c))

/-- `df[cs]`: column selection/reordering on a dataframe. -/
def selectCols (df : DF) (cs : List String) : DF :=
  ⟨cs, df.rows.map (selectRow cs)⟩

/-- Content of a stored TSV file, viewed through its parse: either it is
malformed (parsing raises) or it parses to a dataframe. -/
inductive FileContent where
  | malformed
  | table (df : DF)
deriving DecidableEq, Repr

/-- The three text inputs kept in `st.session_state`. -/
structure SessionState where
  name : String
  song1 : String
  song2 : String
deriving DecidableEq, Repr

/-- The state the program acts on: the remote Dropbox file, the local file
(`none` when the file does not exist), and the session state. -/
structure World where
  remote : Option FileContent
  localFile : Option FileContent
  session : SessionState
deriving DecidableEq, Repr

/-- Messages shown in the UI (`st.error` / `st.warning` / `st.success` /
`st.info`). -/
inductive Msg where
  | error (s : String)
  | warning (s : String)
  | success (s : String)
  | info (s : String)
deriving DecidableEq, Repr

/-- The underlying Dropbox SDK calls a helper can issue. -/
inductive StorageOp where
  | filesDownload
  | filesUpload
deriving DecidableEq, Repr

/-- Failure injected into `dbx.files_download`: either it succeeds (subject
to the remote file existing), raises `ApiError`, or raises some other
exception carrying message `e`. -/
inductive DlOutcome where
  | ok
  | apiError
  | netError (e : String)
deriving DecidableEq, Repr

/-- The environment: which exceptions the Dropbox calls raise on this run.
`ulFail = some e` means `dbx.files_upload` raises an exception with
message `e`. -/
structure Env where
  dl : DlOutcome
  ulFail : Option String
deriving DecidableEq, Repr

/-- Result of one helper call: the new world, the returned boolean, the
storage calls issued, and the UI messages emitted. -/
structure Step where
  world : World
  ok : Bool
  trace : List StorageOp
  msgs : List Msg
deriving DecidableEq, Repr

/-- `download_from_dropbox` from `app.py`: one `dbx.files_download` call;
`ApiError` (including the remote file not existing) returns `False`
silently, any other exception warns and returns `False`; on success the
remote content is written to the local file. -/
def download_from_dropbox (env : Env) (w : World) : Step :=
  match env.dl with
  | DlOutcome.apiError => ⟨w, false, [StorageOp.filesDownload], []⟩
  | DlOutcome.netError e =>
      ⟨w, false, [StorageOp.filesDownload],
        [Msg.warning ("Could not download TSV from Dropbox: " ++ e)]⟩
  | DlOutcome.ok =>
      match w.remote with
      | none => ⟨w, false, [StorageOp.filesDownload], []⟩
      | some c => ⟨{ w with localFile := some c }, true, [StorageOp.filesDownload], []⟩

/-- `upload_to_dropbox` from `app.py`: read the local file and issue one
`dbx.files_upload` with overwrite mode; every exception (including the
local file not existing, in which case no upload call is made) is caught,
warned about, and turned into `False`. -/
def upload_to_dropbox (env : Env) (w : World) : Step :=
  match w.localFile with
  | none =>
      ⟨w, false, [],
        [Msg.warning ("Could not upload TSV to Dropbox: " ++
          "[Errno 2] No such file or directory")]⟩
  | some c =>
      match env.ulFail with
      | some e =>
          ⟨w, false, [StorageOp.filesUpload],
            [Msg.warning ("Could not upload TSV to Dropbox: " ++ e)]⟩
      | none => ⟨{ w with remote := some c }, true, [StorageOp.filesUpload], []⟩

/-- `load_tsv` from `app.py`: a missing or malformed local file yields an
empty dataframe with columns `COLUMNS`; then every missing column of
`COLUMNS` is added filled with `pd.NA` and the columns are restricted to
`COLUMNS` in that order. -/
def load_tsv (f : Option FileContent) : DF :=
  let df : DF :=
    match f with
    | none => ⟨COLUMNS, []⟩
    | some FileContent.malformed => ⟨COLUMNS, []⟩
    | some (FileContent.table d) => d
  selectCols (ensureCols df) COLUMNS

/-- `save_tsv` from `app.py`: write `df[COLUMNS]` to the local file as TSV;
the stored content parses back to that dataframe. -/
def save_tsv (df : DF) : FileContent :=
  FileContent.table (selectCols df COLUMNS)

/-- The association-list row built from one submission
(`{"Name": name, "Song1": song1, "Song2": song2}`). -/
def canonRow (name song1 song2 : String) : Row :=
  [("Name", name), ("Song1", song1), ("Song2", song2)]

/-- `append_submission` from `app.py`: download the latest TSV (best
effort), load the local file, append the new row, save locally, then upload;
the returned boolean is the upload's. -/
def append_submission (env : Env) (w : World)
    (name song1 song2 : String) : Step :=
  let d := download_from_dropbox env w
  let dlMsg : Msg :=
    if d.ok then Msg.info "Loaded latest TSV from Dropbox."
    else Msg.warning
      "No Dropbox TSV found (or download failed) — using local file (or creating a new one)."
  let df := load_tsv d.world.localFile
  let df2 : DF := ⟨df.columns, df.rows ++ [canonRow name song1 song2]⟩
  let w2 := { d.world with localFile := some (save_tsv df2) }
  let u := upload_to_dropbox env w2
  ⟨u.world, u.ok, d.trace ++ u.trace, d.msgs ++ [dlMsg] ++ u.msgs⟩

/-- Result of one run of the submit handler: the new world, the storage
calls issued, the UI messages, and (instrumentation) the arguments
`append_submission` was invoked with, if it was. -/
structure SubmitResult where
  world : World
  trace : List StorageOp
  msgs : List Msg
  appended : Option (String × String × String)
deriving DecidableEq, Repr

/-- The validation error shown by the submit handler. -/
def validationError : Msg :=
  Msg.error "Please fill in Name, Song1, and Song2."

/-- The `if submit:` block of `app.py`: strip the three fields, reject with
an error if any is empty, otherwise run `append_submission` on the stripped
values; on success show a success message and clear the three session-state
fields, on failure show a soft error and leave them unchanged. -/
def submit_handler (env : Env) (w : World) : SubmitResult :=
  let clean_name := pstrip w.session.name
  let clean_song1 := pstrip w.session.song1
  let clean_song2 := pstrip w.session.song2
  if clean_name = "" ∨ clean_song1 = "" ∨ clean_song2 = "" then
    ⟨w, [], [validationError], none⟩
  else
    let a := append_submission env w clean_name clean_song1 clean_song2
    if a.ok then
      ⟨{ a.world with session := ⟨"", "", ""⟩ }, a.trace,
        a.msgs ++ [Msg.success "Submitted! ✅"],
        some (clean_name, clean_song1, clean_song2)⟩
    else
      ⟨a.world, a.trace,
        a.msgs ++ [Msg.error "Saved locally, but upload to Dropbox failed. Please try again."],
        some (clean_name, clean_song1, clean_song2)⟩

/-- The invariant on one stored row: the three fields `Name`, `Song1`,
`Song2` are non-empty after trimming. -/
def RowOK (r : Row) : Prop :=
  ∀ c ∈ COLUMNS, pstrip (lookupCell r c) ≠ ""

instance (r : Row) : Decidable (RowOK r) := by
  unfold RowOK; infer_instance

/-- Every row of the dataframe satisfies `RowOK`. -/
def dfOK (df : DF) : Prop :=
  ∀ r ∈ df.rows, RowOK r

instance (df : DF) : Decidable (dfOK df) := by
  unfold dfOK; infer_instance

/-- The row invariant on a stored file: a missing or malformed file is
trivially fine, a parsable one must have all rows `RowOK`. -/
def fileOK (f : Option FileContent) : Prop :=
  match f with
  | some (FileContent.table df) => dfOK df
  | _ => True

instance : (f : Option FileContent) → Decidable (fileOK f)
  | none => isTrue trivial
  | some FileContent.malformed => isTrue trivial
  | some (FileContent.table df) => inferInstanceAs (Decidable (dfOK df))

/-- The row invariant on both stored copies of the table. -/
def WorldOK (w : World) : Prop :=
  fileOK w.remote ∧ fileOK w.localFile

instance (w : World) : Decidable (WorldOK w) := by
  unfold WorldOK; infer_instance

/-! ## Helper lemmas about rows and cells -/

theorem lookupCell_cons (k v : String) (r : Row) (c : String) :
    lookupCell ((k, v) :: r) c = if c == k then v else lookupCell r c := by
  simp only [lookupCell, List.lookup]
  by_cases h : c == k
  · simp [h]
  · simp [h]

theorem lookupCell_append_NA (L : Row)
    (hL : ∀ p ∈ L, p.2 = "<NA>") (r : Row) (c : String) :
    lookupCell (r ++ L) c = lookupCell r c := by
  induction r with
  | nil =>
    simp only [List.nil_append]
    induction L with
    | nil => rfl
    | cons p L ih =>
      obtain ⟨k, v⟩ := p
      have hv : v = "<NA>" := hL (k, v) (by simp)
      rw [lookupCell_cons]
      by_cases h : c == k
      · simp [h, hv, lookupCell, List.lookup]
      · rw [if_neg h]
        exact ih (fun q hq => hL q (by simp [hq]))
  | cons p r ih =>
    obtain ⟨k, v⟩ := p
    rw [List.cons_append, lookupCell_cons, lookupCell_cons, ih]

theorem lookupCell_selectRow (r : Row) (c : String) (hc : c ∈ COLUMNS) :
    lookupCell (selectRow COLUMNS r) c = lookupCell r c := by
  simp only [COLUMNS, List.mem_cons, List.not_mem_nil, or_false] at hc
  rcases hc with rfl | rfl | rfl
  · simp [selectRow, COLUMNS, lookupCell_cons]
  · simp [selectRow, COLUMNS, lookupCell_cons]
  · simp [selectRow, COLUMNS, lookupCell_cons]

theorem selectRow_selectRow (r : Row) :
    selectRow COLUMNS (selectRow COLUMNS r) = selectRow COLUMNS r := by
  have h : ∀ c ∈ COLUMNS, lookupCell (selectRow COLUMNS r) c = lookupCell r c :=
    fun c hc => lookupCell_selectRow r c hc
  simp only [selectRow] at h ⊢
  apply List.map_congr_left
  intro c hc
  rw [h c hc]

theorem ensureCols_rows (d : DF) :
    ∃ L : Row, (∀ p ∈ L, p.2 = "<NA>") ∧
      (ensureCols d).rows = d.rows.map (fun r => r ++ L) := by
  suffices h : ∀ (cs : List String) (d : DF),
      ∃ L : Row, (∀ p ∈ L, p.2 = "<NA>") ∧
        (cs.foldl (fun d c => if c ∈ d.columns then d else setColNA d c) d).rows
          = d.rows.map (fun r => r ++ L) from h COLUMNS d
  intro cs
  induction cs with
  | nil => exact fun d => ⟨[], by simp, by simp⟩
  | cons c cs ih =>
    intro d
    simp only [List.foldl_cons]
    by_cases hc : c ∈ d.columns
    · rw [if_pos hc]; exact ih d
    · rw [if_neg hc]
      obtain ⟨L, hL, hrows⟩ := ih (setColNA d c)
      refine ⟨(c, "<NA>") :: L, ?_, ?_⟩
      · intro p hp
        rcases List.mem_cons.mp hp with rfl | hp
        · rfl
        · exact hL p hp
      · rw [hrows]
        simp [setColNA, List.map_map, Function.comp]

theorem load_tsv_rows (f : Option FileContent) :
    ∃ L : Row, (∀ p ∈ L, p.2 = "<NA>") ∧
      (load_tsv f).rows =
        (match f with
          | some (FileContent.table d) => d.rows
          | _ => []).map (fun r => selectRow COLUMNS (r ++ L)) := by
  unfold load_tsv
  cases f with
  | none =>
    obtain ⟨L, hL, hrows⟩ := ensureCols_rows ⟨COLUMNS, []⟩
    exact ⟨L, hL, by simp [selectCols, hrows]⟩
  | some fc =>
    cases fc with
    | malformed =>
      obtain ⟨L, hL, hrows⟩ := ensureCols_rows ⟨COLUMNS, []⟩
      exact ⟨L, hL, by simp [selectCols, hrows]⟩
    | table d =>
      obtain ⟨L, hL, hrows⟩ := ensureCols_rows d
      exact ⟨L, hL, by simp [selectCols, hrows, List.map_map, Function.comp]⟩

theorem load_tsv_rows_canonical (f : Option FileContent) :
    ∀ r ∈ (load_tsv f).rows, selectRow COLUMNS r = r := by
  obtain ⟨L, hL, hrows⟩ := load_tsv_rows f
  intro r hr
  rw [hrows] at hr
  obtain ⟨r₀, _, rfl⟩ := List.mem_map.mp hr
  exact selectRow_selectRow (r₀ ++ L)

theorem selectCols_load_tsv (f : Option FileContent) :
    selectCols (load_tsv f) COLUMNS = load_tsv f := by
  have h := load_tsv_rows_canonical f
  have hcols : (load_tsv f).columns = COLUMNS := rfl
  cases hdf : load_tsv f with
  | mk cols rows =>
    rw [hdf] at h hcols
    simp only [selectCols, DF.mk.injEq]
    refine ⟨hcols.symm, ?_⟩
    exact List.map_congr_left (fun r hr => h r hr) |>.trans (List.map_id rows)

/-! ## Lemmas about `pstrip` -/

theorem dropWhile_pstripList (l : List Char) :
    (pstripList l).dropWhile isPySpace = pstripList l := by
  unfold pstripList
  rw [List.dropWhile_eq_self_iff]
  intro hl
  have hpre : (l.dropWhile isPySpace).rdropWhile isPySpace <+: l.dropWhile isPySpace :=
    List.rdropWhile_prefix _ _
  have hne : ((l.dropWhile isPySpace).rdropWhile isPySpace) ≠ [] :=
    List.ne_nil_of_length_pos hl
  have hne2 : l.dropWhile isPySpace ≠ [] := by
    intro h
    apply hne
    rw [h, List.rdropWhile_nil]
  have hheads := List.IsPrefix.head hpre hne
  have hhb := List.head_dropWhile_not isPySpace l hne2
  rw [List.get_mk_zero, hheads]
  simp [hhb]

theorem pstripList_idem (l : List Char) :
    pstripList (pstripList l) = pstripList l := by
  have h1 := dropWhile_pstripList l
  show ((pstripList l).dropWhile isPySpace).rdropWhile isPySpace = pstripList l
  rw [h1]
  unfold pstripList
  exact List.rdropWhile_idempotent _ _

theorem pstrip_idem (s : String) : pstrip (pstrip s) = pstrip s := by
  show String.mk (pstripList (pstripList s.data)) = String.mk (pstripList s.data)
  rw [pstripList_idem]

/-! ## Structural lemmas about the helpers -/

theorem selectRow_canonRow (n s1 s2 : String) :
    selectRow COLUMNS (canonRow n s1 s2) = canonRow n s1 s2 := by
  simp [selectRow, canonRow, COLUMNS, lookupCell_cons]

theorem upload_preserves_localFile (env : Env) (w : World) :
    (upload_to_dropbox env w).world.localFile = w.localFile := by
  obtain ⟨rem, lf, sess⟩ := w
  unfold upload_to_dropbox
  cases lf with
  | none => rfl
  | some c => cases env.ulFail <;> rfl

theorem upload_preserves_session (env : Env) (w : World) :
    (upload_to_dropbox env w).world.session = w.session := by
  obtain ⟨rem, lf, sess⟩ := w
  unfold upload_to_dropbox
  cases lf with
  | none => rfl
  | some c => cases env.ulFail <;> rfl

theorem download_preserves_remote (env : Env) (w : World) :
    (download_from_dropbox env w).world.remote = w.remote := by
  obtain ⟨rem, lf, sess⟩ := w
  unfold download_from_dropbox
  cases env.dl with
  | ok => cases rem <;> rfl
  | apiError => rfl
  | netError e => rfl

theorem download_preserves_session (env : Env) (w : World) :
    (download_from_dropbox env w).world.session = w.session := by
  obtain ⟨rem, lf, sess⟩ := w
  unfold download_from_dropbox
  cases env.dl with
  | ok => cases rem <;> rfl
  | apiError => rfl
  | netError e => rfl

theorem download_trace (env : Env) (w : World) :
    (download_from_dropbox env w).trace = [StorageOp.filesDownload] := by
  obtain ⟨rem, lf, sess⟩ := w
  unfold download_from_dropbox
  cases env.dl with
  | ok => cases rem <;> rfl
  | apiError => rfl
  | netError e => rfl

theorem selectCols_append_canon (f : Option FileContent) (n s1 s2 : String) :
    selectCols ⟨(load_tsv f).columns, (load_tsv f).rows ++ [canonRow n s1 s2]⟩ COLUMNS
      = ⟨COLUMNS, (load_tsv f).rows ++ [canonRow n s1 s2]⟩ := by
  have h1 := selectCols_load_tsv f
  have h2 : (load_tsv f).rows.map (selectRow COLUMNS) = (load_tsv f).rows := by
    have := congrArg DF.rows h1
    simpa [selectCols] using this
  simp [selectCols, h2, selectRow_canonRow]

theorem append_submission_localFile (env : Env) (w : World) (n s1 s2 : String) :
    (append_submission env w n s1 s2).world.localFile =
      some (FileContent.table
        ⟨COLUMNS, (load_tsv (download_from_dropbox env w).world.localFile).rows
            ++ [canonRow n s1 s2]⟩) := by
  unfold append_submission
  rw [upload_preserves_localFile]
  simp [save_tsv, selectCols_append_canon]

theorem append_preserves_session (env : Env) (w : World) (n s1 s2 : String) :
    (append_submission env w n s1 s2).world.session = w.session := by
  unfold append_submission
  rw [upload_preserves_session]
  simp [download_preserves_session]

/-! ## Characterization lemmas for the synchronization helpers -/

theorem append_submission_ok (env : Env) (w : World) (n s1 s2 : String) :
    (append_submission env w n s1 s2).ok = env.ulFail.isNone := by
  simp only [append_submission, upload_to_dropbox]
  cases env.ulFail <;> rfl

theorem append_submission_remote_fail (env : Env) (w : World) (n s1 s2 e : String)
    (he : env.ulFail = some e) :
    (append_submission env w n s1 s2).world.remote = w.remote := by
  simp only [append_submission, upload_to_dropbox, he]
  exact download_preserves_remote env w

theorem append_submission_warn_fail (env : Env) (w : World) (n s1 s2 e : String)
    (he : env.ulFail = some e) :
    Msg.warning ("Could not upload TSV to Dropbox: " ++ e)
      ∈ (append_submission env w n s1 s2).msgs := by
  simp only [append_submission, upload_to_dropbox, he]
  simp

theorem append_submission_remote_success (env : Env) (w : World) (n s1 s2 : String)
    (he : env.ulFail = none) :
    (append_submission env w n s1 s2).world.remote =
      (append_submission env w n s1 s2).world.localFile := by
  simp only [append_submission, upload_to_dropbox, he]

theorem append_submission_trace (env : Env) (w : World) (n s1 s2 : String) :
    (append_submission env w n s1 s2).trace =
      [StorageOp.filesDownload, StorageOp.filesUpload] := by
  simp only [append_submission, upload_to_dropbox]
  cases env.ulFail <;> simp [download_trace]

/-! ## Invariant preservation -/

theorem RowOK_selectRow (r : Row) (h : RowOK r) : RowOK (selectRow COLUMNS r) := by
  intro c hc
  rw [lookupCell_selectRow r c hc]
  exact h c hc

theorem RowOK_append_NA (L : Row) (hL : ∀ p ∈ L, p.2 = "<NA>") (r : Row)
    (h : RowOK r) : RowOK (r ++ L) := by
  intro c hc
  rw [lookupCell_append_NA L hL r c]
  exact h c hc

theorem load_tsv_OK (f : Option FileContent) (h : fileOK f) : dfOK (load_tsv f) := by
  obtain ⟨L, hL, hrows⟩ := load_tsv_rows f
  intro r hr
  rw [hrows] at hr
  obtain ⟨r₀, hr₀, rfl⟩ := List.mem_map.mp hr
  apply RowOK_selectRow
  apply RowOK_append_NA L hL
  cases f with
  | none => simp at hr₀
  | some fc =>
    cases fc with
    | malformed => simp at hr₀
    | table d => exact h r₀ hr₀

theorem canonRow_OK (n s1 s2 : String)
    (h1 : pstrip n ≠ "") (h2 : pstrip s1 ≠ "") (h3 : pstrip s2 ≠ "") :
    RowOK (canonRow n s1 s2) := by
  intro c hc
  simp only [COLUMNS, List.mem_cons, List.not_mem_nil, or_false] at hc
  rcases hc with rfl | rfl | rfl
  · simpa [canonRow, lookupCell_cons] using h1
  · simpa [canonRow, lookupCell_cons] using h2
  · simpa [canonRow, lookupCell_cons] using h3

theorem save_tsv_OK (df : DF) (h : dfOK df) : fileOK (some (save_tsv df)) := by
  show dfOK (selectCols df COLUMNS)
  intro r hr
  simp only [selectCols] at hr
  obtain ⟨r₀, hr₀, rfl⟩ := List.mem_map.mp hr
  exact RowOK_selectRow r₀ (h r₀ hr₀)

theorem download_OK (env : Env) (w : World) (h : WorldOK w) :
    WorldOK (download_from_dropbox env w).world := by
  obtain ⟨rem, lf, sess⟩ := w
  obtain ⟨hr, hl⟩ := h
  unfold download_from_dropbox
  cases env.dl with
  | apiError => exact ⟨hr, hl⟩
  | netError e => exact ⟨hr, hl⟩
  | ok =>
    cases rem with
    | none => exact ⟨hr, hl⟩
    | some c => exact ⟨hr, hr⟩

theorem upload_OK (env : Env) (w : World) (h : WorldOK w) :
    WorldOK (upload_to_dropbox env w).world := by
  obtain ⟨rem, lf, sess⟩ := w
  obtain ⟨hr, hl⟩ := h
  unfold upload_to_dropbox
  cases lf with
  | none => exact ⟨hr, hl⟩
  | some c =>
    cases env.ulFail with
    | some e => exact ⟨hr, hl⟩
    | none => exact ⟨hl, hl⟩

theorem append_OK (env : Env) (w : World) (n s1 s2 : String) (h : WorldOK w)
    (h1 : pstrip n ≠ "") (h2 : pstrip s1 ≠ "") (h3 : pstrip s2 ≠ "") :
    WorldOK (append_submission env w n s1 s2).world := by
  simp only [append_submission]
  apply upload_OK
  constructor
  · exact (download_OK env w h).1
  · apply save_tsv_OK
    intro r hr
    rcases List.mem_append.mp hr with hr | hr
    · exact load_tsv_OK _ (download_OK env w h).2 r hr
    · rw [List.mem_singleton.mp hr]
      exact canonRow_OK n s1 s2 h1 h2 h3

/-! ## Submit-handler lemmas -/

theorem validationError_not_in_append (env : Env) (w : World) (n s1 s2 : String) :
    validationError ∉ (append_submission env w n s1 s2).msgs := by
  obtain ⟨rem, lf, sess⟩ := w
  obtain ⟨dl, ul⟩ := env
  cases dl <;> cases rem <;> cases ul <;>
    simp [append_submission, upload_to_dropbox, download_from_dropbox, validationError]

theorem submit_localFile_of_valid (env : Env) (w : World)
    (h1 : pstrip w.session.name ≠ "") (h2 : pstrip w.session.song1 ≠ "")
    (h3 : pstrip w.session.song2 ≠ "") :
    (submit_handler env w).world.localFile =
      some (FileContent.table
        ⟨COLUMNS, (load_tsv (download_from_dropbox env w).world.localFile).rows ++
          [canonRow (pstrip w.session.name) (pstrip w.session.song1)
            (pstrip w.session.song2)]⟩) := by
  simp only [submit_handler]
  rw [if_neg (by push_neg; exact ⟨h1, h2, h3⟩)]
  split
  · exact append_submission_localFile env w _ _ _
  · exact append_submission_localFile env w _ _ _

/-! ## The claims -/

/-- **C1**: for every valid submission (name and both songs non-empty after
trimming), the submit flow appends exactly one row holding the three given
(trimmed) values to the end of the table loaded after the download step;
every previously loaded row is kept unchanged, in its position, and no
stored row is updated or deleted. -/
theorem claim_C1_append_appends_one_row (env : Env) (w : World)
    (h1 : pstrip w.session.name ≠ "") (h2 : pstrip w.session.song1 ≠ "")
    (h3 : pstrip w.session.song2 ≠ "") :
    (submit_handler env w).world.localFile =
      some (FileContent.table
        ⟨COLUMNS, (load_tsv (download_from_dropbox env w).world.localFile).rows ++
          [canonRow (pstrip w.session.name) (pstrip w.session.song1)
            (pstrip w.session.song2)]⟩) :=
  submit_localFile_of_valid env w h1 h2 h3

theorem claim_C1_witness :
    (submit_handler ⟨DlOutcome.ok, none⟩
        ⟨none, none, ⟨" Max ", "A - B", "C - D"⟩⟩).world.localFile =
      some (FileContent.table ⟨COLUMNS, [canonRow "Max" "A - B" "C - D"]⟩) := by
  have h := claim_C1_append_appends_one_row ⟨DlOutcome.ok, none⟩
    ⟨none, none, ⟨" Max ", "A - B", "C - D"⟩⟩ (by decide) (by decide) (by decide)
  rw [h]
  decide

/-- **C3**: every load of the table yields a dataframe with exactly the
three columns `Name`, `Song1`, `Song2` in this fixed order, whatever
columns the underlying file has. -/
theorem claim_C3_fixed_columns (f : Option FileContent) :
    (load_tsv f).columns = COLUMNS :=
  rfl

/-- **C5**: a local file that exists but cannot be parsed as a TSV makes
`load_tsv` return the empty table with the three fixed columns instead of
propagating the parse error. -/
theorem claim_C5_malformed_empty :
    load_tsv (some FileContent.malformed) = ⟨COLUMNS, []⟩ := by
  decide

/-- **C8**: the invariant that all three fields of every stored row are
non-empty after trimming is preserved by the whole submission flow
(load, append, save, and both synchronization directions). -/
theorem claim_C8_invariant_preserved (env : Env) (w : World) (h : WorldOK w) :
    WorldOK (submit_handler env w).world := by
  simp only [submit_handler]
  by_cases hv : pstrip w.session.name = "" ∨ pstrip w.session.song1 = ""
      ∨ pstrip w.session.song2 = ""
  · rw [if_pos hv]
    exact h
  · rw [if_neg hv]
    push_neg at hv
    obtain ⟨h1, h2, h3⟩ := hv
    have ha := append_OK env w (pstrip w.session.name) (pstrip w.session.song1)
      (pstrip w.session.song2) h
      (by rw [pstrip_idem]; exact h1)
      (by rw [pstrip_idem]; exact h2)
      (by rw [pstrip_idem]; exact h3)
    split
    · exact ⟨ha.1, ha.2⟩
    · exact ha

theorem claim_C8_witness :
    WorldOK (⟨some (FileContent.table ⟨COLUMNS, [canonRow "n" "s - a" "t - b"]⟩),
        some FileContent.malformed, ⟨" Zoe ", "A - B", "C - D"⟩⟩ : World) ∧
    WorldOK (submit_handler ⟨DlOutcome.apiError, some "network down"⟩
      ⟨some (FileContent.table ⟨COLUMNS, [canonRow "n" "s - a" "t - b"]⟩),
        some FileContent.malformed, ⟨" Zoe ", "A - B", "C - D"⟩⟩).world :=
  ⟨by decide, claim_C8_invariant_preserved _ _ (by decide)⟩

/-- **C9**: a submission rejected by validation performs no download, no
local write and no upload: the entire world (both files and the session
state) is unchanged and no storage call is issued. -/
theorem claim_C9_rejection_no_effect (env : Env) (w : World)
    (h : pstrip w.session.name = "" ∨ pstrip w.session.song1 = ""
      ∨ pstrip w.session.song2 = "") :
    (submit_handler env w).world = w ∧ (submit_handler env w).trace = [] := by
  simp only [submit_handler]
  rw [if_pos h]
  exact ⟨rfl, rfl⟩

theorem claim_C9_witness :
    (submit_handler ⟨DlOutcome.ok, none⟩
        ⟨some FileContent.malformed, none, ⟨"  ", "A - B", "C - D"⟩⟩).world =
      ⟨some FileContent.malformed, none, ⟨"  ", "A - B", "C - D"⟩⟩ ∧
    (submit_handler ⟨DlOutcome.ok, none⟩
        ⟨some FileContent.malformed, none, ⟨"  ", "A - B", "C - D"⟩⟩).trace = [] :=
  claim_C9_rejection_no_effect ⟨DlOutcome.ok, none⟩
    ⟨some FileContent.malformed, none, ⟨"  ", "A - B", "C - D"⟩⟩ (Or.inl (by decide))

/-- `load_tsv` of a missing file is the empty table. -/
theorem load_tsv_none : load_tsv none = ⟨COLUMNS, []⟩ := by
  decide

/-- **C2**: on submit, the submission is rejected with the user-visible
validation error exactly when some of the three fields is empty after
trimming; otherwise `append_submission` is invoked with the trimmed
values (and it is not invoked on rejection). -/
theorem claim_C2_validation_iff (env : Env) (w : World) :
    ((pstrip w.session.name = "" ∨ pstrip w.session.song1 = ""
        ∨ pstrip w.session.song2 = "")
      ↔ validationError ∈ (submit_handler env w).msgs) ∧
    ((pstrip w.session.name ≠ "" ∧ pstrip w.session.song1 ≠ ""
        ∧ pstrip w.session.song2 ≠ "") →
      (submit_handler env w).appended =
        some (pstrip w.session.name, pstrip w.session.song1,
          pstrip w.session.song2)) ∧
    ((pstrip w.session.name = "" ∨ pstrip w.session.song1 = ""
        ∨ pstrip w.session.song2 = "") →
      (submit_handler env w).appended = none) := by
  by_cases hv : pstrip w.session.name = "" ∨ pstrip w.session.song1 = ""
      ∨ pstrip w.session.song2 = ""
  · refine ⟨⟨fun _ => ?_, fun _ => hv⟩, fun hval => ?_, fun _ => ?_⟩
    · simp [submit_handler, if_pos hv]
    · exact absurd hv (by push_neg; exact hval)
    · simp [submit_handler, if_pos hv]
  · refine ⟨⟨fun h => absurd h hv, fun hm => ?_⟩, fun hval => ?_,
      fun h => absurd h hv⟩
    · exfalso
      simp only [submit_handler] at hm
      rw [if_neg hv] at hm
      revert hm
      split
      · intro hm
        rcases List.mem_append.mp hm with hm | hm
        · exact validationError_not_in_append env w _ _ _ hm
        · exact absurd (List.mem_singleton.mp hm) (by decide)
      · intro hm
        rcases List.mem_append.mp hm with hm | hm
        · exact validationError_not_in_append env w _ _ _ hm
        · exact absurd (List.mem_singleton.mp hm) (by decide)
    · simp only [submit_handler]
      rw [if_neg hv]
      split <;> rfl

theorem claim_C2_witness :
    (validationError ∈ (submit_handler ⟨DlOutcome.ok, none⟩
        ⟨none, none, ⟨" ", "x - y", "z - w"⟩⟩).msgs) ∧
    (submit_handler ⟨DlOutcome.ok, none⟩
        ⟨none, none, ⟨"Ann ", "x - y", "z - w"⟩⟩).appended =
      some ("Ann", "x - y", "z - w") := by
  constructor
  · exact (claim_C2_validation_iff ⟨DlOutcome.ok, none⟩
      ⟨none, none, ⟨" ", "x - y", "z - w"⟩⟩).1.mp (Or.inl (by decide))
  · have h := (claim_C2_validation_iff ⟨DlOutcome.ok, none⟩
      ⟨none, none, ⟨"Ann ", "x - y", "z - w"⟩⟩).2.1
      ⟨by decide, by decide, by decide⟩
    rw [h]
    decide

theorem download_world_of_remote_none (env : Env) (w : World)
    (h : w.remote = none) :
    (download_from_dropbox env w).world = w ∧
    (download_from_dropbox env w).ok = false := by
  obtain ⟨dl, ul⟩ := env
  cases dl <;> simp [download_from_dropbox, h]

/-- **C4**: a missing remote file (the `ApiError` path of the download) on
a first run is treated as an empty table: the download reports failure
without raising, the subsequent load yields the empty table, and a valid
submission still goes through and is saved. -/
theorem claim_C4_missing_remote_first_run (env : Env) (w : World)
    (hrem : w.remote = none) (hloc : w.localFile = none) :
    (download_from_dropbox env w).ok = false ∧
    load_tsv (download_from_dropbox env w).world.localFile = ⟨COLUMNS, []⟩ ∧
    (pstrip w.session.name ≠ "" → pstrip w.session.song1 ≠ "" →
      pstrip w.session.song2 ≠ "" →
      (submit_handler env w).world.localFile =
        some (FileContent.table ⟨COLUMNS,
          [canonRow (pstrip w.session.name) (pstrip w.session.song1)
            (pstrip w.session.song2)]⟩)) := by
  obtain ⟨hw, hok⟩ := download_world_of_remote_none env w hrem
  refine ⟨hok, ?_, ?_⟩
  · rw [hw, hloc, load_tsv_none]
  · intro h1 h2 h3
    rw [submit_localFile_of_valid env w h1 h2 h3, hw, hloc, load_tsv_none]
    simp

theorem claim_C4_witness :
    (download_from_dropbox ⟨DlOutcome.ok, none⟩
        ⟨none, none, ⟨"a", "b - c", "d - e"⟩⟩).ok = false ∧
    load_tsv (download_from_dropbox ⟨DlOutcome.ok, none⟩
        ⟨none, none, ⟨"a", "b - c", "d - e"⟩⟩).world.localFile = ⟨COLUMNS, []⟩ ∧
    (submit_handler ⟨DlOutcome.ok, none⟩
        ⟨none, none, ⟨"a", "b - c", "d - e"⟩⟩).world.localFile =
      some (FileContent.table ⟨COLUMNS, [canonRow "a" "b - c" "d - e"]⟩) := by
  obtain ⟨o1, o2, o3⟩ := claim_C4_missing_remote_first_run ⟨DlOutcome.ok, none⟩
    ⟨none, none, ⟨"a", "b - c", "d - e"⟩⟩ rfl rfl
  refine ⟨o1, o2, ?_⟩
  rw [o3 (by decide) (by decide) (by decide)]
  decide

/-- **C6**: when the remote upload fails, the submission is still saved to
the local file (the local save precedes and is unaffected by the upload
outcome), `append_submission` returns `False`, a user-facing warning is
shown, and the remote file is left as it was. -/
theorem claim_C6_upload_failure_local_save (env : Env) (w : World)
    (n s1 s2 e : String) (he : env.ulFail = some e) :
    (append_submission env w n s1 s2).ok = false ∧
    (append_submission env w n s1 s2).world.localFile =
      some (FileContent.table
        ⟨COLUMNS, (load_tsv (download_from_dropbox env w).world.localFile).rows ++
          [canonRow n s1 s2]⟩) ∧
    Msg.warning ("Could not upload TSV to Dropbox: " ++ e)
      ∈ (append_submission env w n s1 s2).msgs ∧
    (append_submission env w n s1 s2).world.remote = w.remote := by
  refine ⟨?_, append_submission_localFile env w n s1 s2,
    append_submission_warn_fail env w n s1 s2 e he,
    append_submission_remote_fail env w n s1 s2 e he⟩
  rw [append_submission_ok, he]
  rfl

theorem claim_C6_witness :
    (append_submission ⟨DlOutcome.apiError, some "rate limit"⟩
        ⟨none, none, ⟨"", "", ""⟩⟩ "n" "s - 1" "s - 2").ok = false ∧
    (append_submission ⟨DlOutcome.apiError, some "rate limit"⟩
        ⟨none, none, ⟨"", "", ""⟩⟩ "n" "s - 1" "s - 2").world.localFile =
      some (FileContent.table ⟨COLUMNS, [canonRow "n" "s - 1" "s - 2"]⟩) ∧
    Msg.warning ("Could not upload TSV to Dropbox: " ++ "rate limit")
      ∈ (append_submission ⟨DlOutcome.apiError, some "rate limit"⟩
        ⟨none, none, ⟨"", "", ""⟩⟩ "n" "s - 1" "s - 2").msgs ∧
    (append_submission ⟨DlOutcome.apiError, some "rate limit"⟩
        ⟨none, none, ⟨"", "", ""⟩⟩ "n" "s - 1" "s - 2").world.remote = none := by
  obtain ⟨o1, o2, o3, o4⟩ := claim_C6_upload_failure_local_save
    ⟨DlOutcome.apiError, some "rate limit"⟩ ⟨none, none, ⟨"", "", ""⟩⟩
    "n" "s - 1" "s - 2" "rate limit" rfl
  refine ⟨o1, ?_, o3, o4⟩
  rw [o2]
  decide

/-- **C7**: neither Dropbox helper propagates an exception: every injected
failure is caught and turned into a `False` return, and each helper issues
at most one underlying storage call (exactly one for the download), with no
retry. -/
theorem claim_C7_single_attempt_no_raise (env : Env) (w : World) :
    (download_from_dropbox env w).trace = [StorageOp.filesDownload] ∧
    (env.dl = DlOutcome.apiError → (download_from_dropbox env w).ok = false) ∧
    (∀ e, env.dl = DlOutcome.netError e →
      (download_from_dropbox env w).ok = false) ∧
    (upload_to_dropbox env w).trace.length ≤ 1 ∧
    (∀ e, env.ulFail = some e → (upload_to_dropbox env w).ok = false) := by
  obtain ⟨rem, lf, sess⟩ := w
  refine ⟨download_trace env _, fun h => ?_, fun e h => ?_, ?_, fun e h => ?_⟩
  · simp [download_from_dropbox, h]
  · simp [download_from_dropbox, h]
  · cases lf with
    | none => simp [upload_to_dropbox]
    | some c =>
      cases henv : env.ulFail <;> simp [upload_to_dropbox, henv]
  · cases lf with
    | none => simp [upload_to_dropbox]
    | some c => simp [upload_to_dropbox, h]

theorem claim_C7_witness :
    (download_from_dropbox ⟨DlOutcome.netError "offline", some "denied"⟩
        ⟨none, none, ⟨"", "", ""⟩⟩).trace = [StorageOp.filesDownload] ∧
    (download_from_dropbox ⟨DlOutcome.netError "offline", some "denied"⟩
        ⟨none, none, ⟨"", "", ""⟩⟩).ok = false ∧
    (upload_to_dropbox ⟨DlOutcome.netError "offline", some "denied"⟩
        ⟨none, some FileContent.malformed, ⟨"", "", ""⟩⟩).trace.length ≤ 1 ∧
    (upload_to_dropbox ⟨DlOutcome.netError "offline", some "denied"⟩
        ⟨none, some FileContent.malformed, ⟨"", "", ""⟩⟩).ok = false :=
  ⟨(claim_C7_single_attempt_no_raise _ ⟨none, none, ⟨"", "", ""⟩⟩).1,
    (claim_C7_single_attempt_no_raise _ ⟨none, none, ⟨"", "", ""⟩⟩).2.2.1
      "offline" rfl,
    (claim_C7_single_attempt_no_raise _
      ⟨none, some FileContent.malformed, ⟨"", "", ""⟩⟩).2.2.2.1,
    (claim_C7_single_attempt_no_raise _
      ⟨none, some FileContent.malformed, ⟨"", "", ""⟩⟩).2.2.2.2 "denied" rfl⟩

/-- **C10**: a submission whose upload succeeds clears the three
session-state fields to the empty string; one whose upload fails leaves
the entered values unchanged. -/
theorem claim_C10_session_reset (env : Env) (w : World)
    (h1 : pstrip w.session.name ≠ "") (h2 : pstrip w.session.song1 ≠ "")
    (h3 : pstrip w.session.song2 ≠ "") :
    (env.ulFail = none →
      (submit_handler env w).world.session = ⟨"", "", ""⟩) ∧
    (∀ e, env.ulFail = some e →
      (submit_handler env w).world.session = w.session) := by
  have hok := append_submission_ok env w (pstrip w.session.name)
    (pstrip w.session.song1) (pstrip w.session.song2)
  constructor
  · intro he
    simp only [submit_handler]
    rw [if_neg (by push_neg; exact ⟨h1, h2, h3⟩)]
    rw [if_pos (by rw [hok, he]; rfl)]
  · intro e he
    simp only [submit_handler]
    rw [if_neg (by push_neg; exact ⟨h1, h2, h3⟩)]
    rw [if_neg (by rw [hok, he]; simp)]
    exact append_preserves_session env w _ _ _

theorem claim_C10_witness :
    (submit_handler ⟨DlOutcome.ok, none⟩
        ⟨none, none, ⟨"a ", " b - c", "d - e"⟩⟩).world.session = ⟨"", "", ""⟩ ∧
    (submit_handler ⟨DlOutcome.ok, some "err"⟩
        ⟨none, none, ⟨"a ", " b - c", "d - e"⟩⟩).world.session =
      ⟨"a ", " b - c", "d - e"⟩ :=
  ⟨(claim_C10_session_reset ⟨DlOutcome.ok, none⟩
      ⟨none, none, ⟨"a ", " b - c", "d - e"⟩⟩
      (by decide) (by decide) (by decide)).1 rfl,
    (claim_C10_session_reset ⟨DlOutcome.ok, some "err"⟩
      ⟨none, none, ⟨"a ", " b - c", "d - e"⟩⟩
      (by decide) (by decide) (by decide)).2 "err" rfl⟩
